import Mathlib

/-
Verification of the checksum-manifest and data-validation subsystem of the
Benchmark-PQC repository (scripts/generate_checksums.py, verify_checksums.py,
scripts/validate_data.py), as a shallow embedding in Lean 4.

File contents are byte lists (`List Nat`).  The SHA-256 primitive itself lives
in Python's hashlib, outside the repository; it is modelled (from the spec's
data model, section 3 and the glossary) as an arbitrary digest function
`H : List Nat → Nat` of the full accumulated byte sequence, whose 256-bit value
is rendered by `hexdigest` as a fixed-width hex string.  All repository-level
control flow is translated directly from the source.
-/

namespace BenchmarkPQC

/-- The sixteen lowercase hex digits used by hashlib's hexdigest rendering. -/
def hexChars : List Char := "0123456789abcdef".toList

/-- Hex digit for a nibble value. -/
def hexChar (d : Nat) : Char := hexChars.getD d '0'

/-- Modelled from the spec: hashlib's `hexdigest` rendering of a 256-bit digest
value as exactly 64 lowercase hex characters (big-endian nibbles). -/
def toHex64 (n : Nat) : String :=
  String.mk ((List.range 64).map (fun i => hexChar (n / 16 ^ (63 - i) % 16)))

/-- The `iter(lambda: f.read(size), b"")` loop: splits the file content into
chunks of `n + 1` bytes (the successor form makes the chunk size positive, so
the loop consumes the content; the source uses the literal sizes 65536 and
4096). -/
def readChunks (n : Nat) : List Nat → List (List Nat)
  | [] => []
  | b :: rest => ((b :: rest).take (n + 1)) :: readChunks n ((b :: rest).drop (n + 1))
  termination_by l => l.length
  decreasing_by simp [List.length_drop]; omega

/-- Modelled from the spec: `sha256_hash.update(byte_block)` appends the block
to the byte sequence the running hash object has absorbed. -/
def sha256Update (state block : List Nat) : List Nat := state ++ block

/-- Embeds `calculate_sha256` from scripts/generate_checksums.py lines 15-24 (and the
identical copy in verify_checksums.py lines 10-15): feed the file to the hash
object in 64 KiB chunks, then render the digest. -/
def calculate_sha256 (H : List Nat → Nat) (content : List Nat) : String :=
  toHex64 (H ((readChunks 65535 content).foldl sha256Update []))

/-- Embeds `get_checksum` from scripts/validate_data.py lines 148-154 and 238-244:
identical to `calculate_sha256` except for the 4 KiB chunk size. -/
def get_checksum (H : List Nat → Nat) (content : List Nat) : String :=
  toHex64 (H ((readChunks 4095 content).foldl sha256Update []))

/-- Follows the spec's words (section 4.1): the SHA-256 hex digest of the whole
byte content hashed at once. -/
def sha256Whole (H : List Nat → Nat) (content : List Nat) : String :=
  toHex64 (H content)

/-
Checksum generator, scripts/generate_checksums.py.

A file under the scanned root is a relative component path plus its byte
content and (descriptive) modification-time string; a directory is the list of
its files.  `rglob` and `Path.parts` are reflected by the component lists:
`file_path.parts` of a hit is the root's own components followed by the file's
relative components.
-/

structure FileEntry where
  parts : List String
  content : List Nat
  mtime : String
deriving DecidableEq

/-- Manifest entry written by the generator (lines 48-54). -/
structure ChecksumEntry where
  sha256 : String
  size : Nat
  modified : String
deriving DecidableEq

/-- Embeds `patterns = ["*.json", "*.csv", "*.png", "*.svg"]` (line 33). -/
def patterns : List String := ["*.json", "*.csv", "*.png", "*.svg"]

/-- Embeds `exclude_dirs` (line 36). -/
def exclude_dirs : List String := ["htmlcov", "quality", "__pycache__", ".pytest_cache"]

/-- Modelled from the spec: `rglob` fnmatch of a star-extension pattern against
a file's base name; `*.json` matches exactly the names ending in `.json`
(the pattern's characters after the star are a suffix of the name). -/
def matchesPattern (pat name : String) : Bool :=
  List.isSuffixOf (pat.toList.drop 1) name.toList

/-- The file's base name (last path component). -/
def baseName (f : FileEntry) : String := f.parts.getLastD ""

/-- Embeds `str(relative_path)`: components joined with forward slashes. -/
def pathStr (parts : List String) : String := String.intercalate "/" parts

/-- Line 41: `any(excluded in file_path.parts for excluded in exclude_dirs)`;
`in` on a tuple of path components is exact component membership. -/
def hasExcludedComponent (fullParts : List String) : Bool :=
  exclude_dirs.any (fun ex => fullParts.contains ex)

/-- Embeds `generate_checksums` (lines 27-63), restricted to its `checksums` mapping:
for each pattern, every file under the root whose name matches and whose full
path has no excluded component contributes one entry keyed by its relative
path.  The Python dict is rendered as the association list in insertion order
(the four extension patterns are pairwise disjoint, so for distinct relative
paths no key is written twice). -/
def generate_checksums (H : List Nat → Nat) (rootParts : List String)
    (files : List FileEntry) : List (String × ChecksumEntry) :=
  patterns.flatMap (fun pat =>
    (files.filter (fun f =>
        matchesPattern pat (baseName f)
          && !hasExcludedComponent (rootParts ++ f.parts))).map
      (fun f => (pathStr f.parts,
        ⟨calculate_sha256 H f.content, f.content.length, f.mtime⟩)))

/-
Checksum verifier, verify_checksums.py, and the script emitted by
`generate_verification_script` (generate_checksums.py lines 74-150).
-/

/-- A value of the manifest's per-path mapping as read back from JSON: either
an object exposing a `sha256` field or a bare digest string (spec section 3). -/
inductive ChecksumInfo where
  | obj (sha256 : String)
  | str (s : String)
deriving DecidableEq

/-- The manifest JSON as the verifier sees it: the optional `checksums` and
`files` keys (each a path-keyed mapping). -/
structure ManifestDoc where
  checksums : Option (List (String × ChecksumInfo))
  files : Option (List (String × String))
deriving DecidableEq

/-- Line 48: `info["sha256"] if isinstance(info, dict) else info`. -/
def expectedOf : ChecksumInfo → String
  | .obj s => s
  | .str s => s

structure VerificationReport where
  total : Nat
  verified : Nat
  failed : List (String × String)
deriving DecidableEq

/-- The body of the verifier's per-entry loop (verify_checksums.py lines
38-55).  `readFile` is the filesystem under `data_dir`: the content of
`data_dir / rel_path`, or `none` when that path does not exist. -/
def verifyStep (H : List Nat → Nat) (readFile : String → Option (List Nat))
    (acc : VerificationReport) (e : String × ChecksumInfo) : VerificationReport :=
  match readFile e.1 with
  | none => { acc with failed := acc.failed ++ [(e.1, "missing")] }
  | some content =>
    if calculate_sha256 H content = expectedOf e.2 then
      { acc with verified := acc.verified + 1 }
    else
      { acc with failed := acc.failed ++ [(e.1, "mismatch")] }

/-- Lines 32-55: `total = len(checksums)` up front, then the loop. -/
def verifyEntries (H : List Nat → Nat) (entries : List (String × ChecksumInfo))
    (readFile : String → Option (List Nat)) : VerificationReport :=
  entries.foldl (verifyStep H readFile) ⟨entries.length, 0, []⟩

/-- How a verification run can abort instead of producing a report. -/
inductive VerifyFailure where
  | invalidFormat
  | keyError
  | typeError
deriving DecidableEq

/-- Embeds `verify_checksums` from verify_checksums.py lines 18-56 (up to the exit):
sniffs `checksums` first, then converts the legacy `files` mapping to
`(path, obj sha)` entries (line 27), else prints the invalid-format error and
exits 1 (`invalidFormat`). -/
def verify_checksums (H : List Nat → Nat) (doc : ManifestDoc)
    (readFile : String → Option (List Nat)) :
    Except VerifyFailure VerificationReport :=
  match doc.checksums with
  | some cs => .ok (verifyEntries H cs readFile)
  | none =>
    match doc.files with
    | some fs =>
      .ok (verifyEntries H (fs.map (fun pc => (pc.1, ChecksumInfo.obj pc.2))) readFile)
    | none => .error .invalidFormat

/-- Lines 59-66: exit status of the verifier run. -/
def reportExit (r : VerificationReport) : Nat := if r.failed = [] then 0 else 1

/-- The per-entry loop of the script emitted by `generate_verification_script`
(generate_checksums.py lines 104-120): same shape, except the expected value is
always `info["sha256"]`, which on a bare string entry raises an uncaught
TypeError (`typeError`). -/
def scriptVerifyGo (H : List Nat → Nat) (readFile : String → Option (List Nat)) :
    List (String × ChecksumInfo) → VerificationReport →
      Except VerifyFailure VerificationReport
  | [], acc => .ok acc
  | (p, info) :: rest, acc =>
    match readFile p with
    | none => scriptVerifyGo H readFile rest
        { acc with failed := acc.failed ++ [(p, "missing")] }
    | some content =>
      match info with
      | .str _ => .error .typeError
      | .obj s =>
        if calculate_sha256 H content = s then
          scriptVerifyGo H readFile rest { acc with verified := acc.verified + 1 }
        else
          scriptVerifyGo H readFile rest
            { acc with failed := acc.failed ++ [(p, "mismatch")] }

/-- The emitted script's `verify_checksums` (generate_checksums.py lines
93-131): reads `manifest["checksums"]` unconditionally, so a manifest without
that key raises an uncaught KeyError (`keyError`); there is no `files`
fallback. -/
def script_verify_checksums (H : List Nat → Nat) (doc : ManifestDoc)
    (readFile : String → Option (List Nat)) :
    Except VerifyFailure VerificationReport :=
  match doc.checksums with
  | some cs => scriptVerifyGo H readFile cs ⟨cs.length, 0, []⟩
  | none => .error .keyError

/-- The filesystem view of a generated directory, as the verifier resolves
relative paths against it. -/
def fsOfDir (files : List FileEntry) : String → Option (List Nat) :=
  fun p => (files.find? (fun f => pathStr f.parts == p)).map FileEntry.content

/-- The JSON round trip from the generator's manifest to the verifier's input:
the `checksums` key holds one object per path exposing its `sha256` (the
verifier reads nothing else from an entry). -/
def manifestToDoc (cs : List (String × ChecksumEntry)) : ManifestDoc :=
  ⟨some (cs.map (fun e => (e.1, ChecksumInfo.obj e.2.sha256))), none⟩

/-- Embeds `main` of generate_checksums.py guards only on existence (lines 159-161).
The scanned root either does not exist, exists as a non-directory with some
byte content, or is a directory holding files. -/
inductive RootState where
  | absent
  | nonDir (content : List Nat)
  | dir (files : List FileEntry)
deriving DecidableEq

/-- Embeds `data_dir.exists()`. -/
def rootExists : RootState → Bool
  | .absent => false
  | .nonDir _ => true
  | .dir _ => true

/-- Embeds `if not data_dir.exists(): ... sys.exit(1)` — true iff main aborts with the
does-not-exist error before generating anything. -/
def mainNotFoundExit (root : RootState) : Bool := !(rootExists root)

/-- Follows the spec's words (section 4.2): the expected outcome of one
manifest entry — `missing` when the resolved path does not exist, `mismatch`
when the recomputed digest differs from the recorded one, no failure
otherwise. -/
def specEntryFailure (H : List Nat → Nat) (readFile : String → Option (List Nat))
    (e : String × ChecksumInfo) : Option (String × String) :=
  match readFile e.1 with
  | none => some (e.1, "missing")
  | some content =>
    if calculate_sha256 H content = expectedOf e.2 then none
    else some (e.1, "mismatch")

/-- A concrete digest function used to instantiate witnesses: the byte list
read as a base-256 number. -/
def testDigest : List Nat → Nat :=
  fun bs => bs.foldl (fun a b => a * 256 + b) 0

/-- A concrete two-file directory used to instantiate witnesses. -/
def filesW : List FileEntry :=
  [⟨["a.json"], [104, 105], "2024-01-01T00:00:00"⟩,
   ⟨["sub", "b.csv"], [1], "2024-01-01T00:00:00"⟩]

/-
File validators, scripts/validate_data.py.
-/

/-- Embeds `ValidationResult` (lines 29-36). -/
structure ValidationResult where
  valid : Bool
  errors : List String
  warnings : List String
  file_path : String
  checksum : Option String
deriving DecidableEq

/-- A JSON value as produced by `json.load`: Python keeps integers and floats
apart (floats are decimal literals, modelled as rationals), booleans are a
distinct constructor (though `isinstance(b, int)` holds for them), and objects
are key-unique association lists. -/
inductive JValue where
  | null
  | bool (b : Bool)
  | intNum (n : Int)
  | floatNum (q : Rat)
  | str (s : String)
  | arr (xs : List JValue)
  | obj (kvs : List (String × JValue))

/-- Embeds `isinstance(value, (int, float))`; Python's `bool` is a subclass of
`int`, so booleans pass this check. -/
def jIsNumber : JValue → Bool
  | .bool _ => true
  | .intNum _ => true
  | .floatNum _ => true
  | _ => false

/-- The numeric value used in `value < 0` comparisons (booleans compare as
0/1). -/
def jNumVal : JValue → Rat
  | .bool b => if b then 1 else 0
  | .intNum n => (n : Rat)
  | .floatNum q => q
  | _ => 0

/-- Embeds `isinstance(value, int)` (booleans included). -/
def jIsInt : JValue → Bool
  | .bool _ => true
  | .intNum _ => true
  | _ => false

/-- The integer value used in `num_samples < 100`. -/
def jIntVal : JValue → Int
  | .bool b => if b then 1 else 0
  | .intNum n => n
  | _ => 0

/-- Embeds `isinstance(data, dict)`. -/
def jIsObj : JValue → Bool
  | .obj _ => true
  | _ => false

/-- Python `repr` of a list of strings, as interpolated into the
missing-stats messages. -/
def pyStrListRepr (xs : List String) : String :=
  "[" ++ String.intercalate ", " (xs.map (fun s => "\x27" ++ s ++ "\x27")) ++ "]"

/-- Stand-in for Python's string rendering of a JSON value inside f-string
messages (numeric formatting such as trailing `.0` on floats is outside the
byte-level model; no claim inspects these value fragments). -/
def jRepr : JValue → String
  | .null => "None"
  | .bool true => "True"
  | .bool false => "False"
  | .intNum n => toString n
  | .floatNum q => toString q
  | .str s => "\x27" ++ s ++ "\x27"
  | .arr xs => "[" ++ String.intercalate ", "
      (xs.attach.map (fun x => jRepr x.1)) ++ "]"
  | .obj kvs => "\x7b" ++ String.intercalate ", "
      (kvs.attach.map (fun kv => "\x27" ++ kv.1.1 ++ "\x27: " ++ jRepr kv.1.2)) ++ "\x7d"
decreasing_by
  · have := List.sizeOf_lt_of_mem x.2
    simp at this ⊢
    omega
  · rcases kv with ⟨⟨k, v⟩, hkv⟩
    have := List.sizeOf_lt_of_mem hkv
    simp at this ⊢
    omega

/-- Embeds `self.required_fields` default (line 66). -/
def required_fields : List String := ["algorithm"]

/-- Embeds `stat_fields` for the new `results` format (line 113). -/
def statFieldsNew : List String := ["mean_us", "median_us", "stddev_us", "min_us", "max_us"]

/-- Embeds `stat_fields` for the legacy `operations` format (line 137). -/
def statFieldsOld : List String := ["min", "max", "mean", "median", "stddev"]

/-- Errors contributed by one element of the `results` array (lines 103-123). -/
def resultItemErrors (idx : Nat) (v : JValue) : List String :=
  match v with
  | .obj kvs =>
    statFieldsNew.filterMap (fun sf =>
      match kvs.lookup sf with
      | some value =>
        if jIsNumber value = false ∨ jNumVal value < 0 then
          some ("Invalid " ++ sf ++ " in result " ++ toString idx ++ ": " ++ jRepr value)
        else none
      | none => none)
  | _ => ["Result " ++ toString idx ++ " must be an object"]

/-- Warnings contributed by one element of the `results` array (lines
103-128). -/
def resultItemWarnings (idx : Nat) (v : JValue) : List String :=
  match v with
  | .obj kvs =>
    (if (kvs.lookup "operation").isSome then []
     else ["Result " ++ toString idx ++ " missing \x27operation\x27 field"]) ++
    (let missing := statFieldsNew.filter (fun sf => (kvs.lookup sf).isNone)
     if missing = [] then []
     else ["Result " ++ toString idx ++ " missing stats: " ++ pyStrListRepr missing]) ++
    (match kvs.lookup "num_samples" with
     | some ns =>
       if jIsInt ns = false ∨ jIntVal ns < 100 then
         ["Low sample count in result " ++ toString idx ++ ": " ++ jRepr ns]
       else []
     | none => [])
  | _ => []

/-- Errors from the legacy `operations` mapping (lines 131-135). -/
def operationErrors (ops : List (String × JValue)) : List String :=
  ops.filterMap (fun kv =>
    match kv.2 with
    | .obj _ => none
    | _ => some ("Operation \x27" ++ kv.1 ++ "\x27 must be an object"))

/-- Warnings from the legacy `operations` mapping (lines 131-140). -/
def operationWarnings (ops : List (String × JValue)) : List String :=
  ops.filterMap (fun kv =>
    match kv.2 with
    | .obj okvs =>
      let missing := statFieldsOld.filter (fun sf => (okvs.lookup sf).isNone)
      if missing = [] then none
      else some ("Operation \x27" ++ kv.1 ++ "\x27 missing stats: " ++ pyStrListRepr missing)
    | _ => none)

/-- Errors accumulated over a parsed top-level object (lines 96-141): required
fields first, then either the list-valued `results` branch or, failing its
guard, the mapping-valued `operations` branch. -/
def jsonBodyErrors (kvs : List (String × JValue)) : List String :=
  (required_fields.filterMap (fun fld =>
    if (kvs.lookup fld).isSome then none
    else some ("Missing required field: " ++ fld))) ++
  (match kvs.lookup "results" with
   | some (.arr rs) => (rs.enum.map (fun p => resultItemErrors p.1 p.2)).flatten
   | _ =>
     match kvs.lookup "operations" with
     | some (.obj ops) => operationErrors ops
     | _ => [])

/-- Warnings accumulated over a parsed top-level object (lines 101-140). -/
def jsonBodyWarnings (kvs : List (String × JValue)) : List String :=
  match kvs.lookup "results" with
  | some (.arr rs) => (rs.enum.map (fun p => resultItemWarnings p.1 p.2)).flatten
  | _ =>
    match kvs.lookup "operations" with
    | some (.obj ops) => operationWarnings ops
    | _ => []

/-- A JSON file on disk as the validator's front end sees it: its bytes and
the outcome of `json.load` (the error string of the `JSONDecodeError` when
parsing fails).  `none` at the use sites stands for a missing file. -/
structure JFileData where
  content : List Nat
  parse : Except String JValue

/-- Embeds `JSONValidator.validate` (lines 68-146): existence, emptiness
(`st_size == 0` is literally empty content), parse, root-is-object, then the
field checks; the checksum is attached only on the non-fast-fail path. -/
def JSONValidator.validate (H : List Nat → Nat) (file_path : String)
    (file : Option JFileData) : ValidationResult :=
  match file with
  | none => ⟨false, ["File not found: " ++ file_path], [], file_path, none⟩
  | some f =>
    if f.content = [] then
      ⟨false, ["File is empty: " ++ file_path], [], file_path, none⟩
    else
      match f.parse with
      | .error e => ⟨false, ["Invalid JSON: " ++ e], [], file_path, none⟩
      | .ok (.obj kvs) =>
        ⟨(jsonBodyErrors kvs).isEmpty, jsonBodyErrors kvs, jsonBodyWarnings kvs,
          file_path, some (get_checksum H f.content)⟩
      | .ok _ =>
        ⟨false, ["Root element must be a JSON object"], [], file_path, none⟩

/-- Embeds `self.expected_columns` default (lines 165-171). -/
def expected_columns : List String := ["algorithm", "operation", "iterations", "mean", "median"]

/-- The two critical columns of the row loop (line 210). -/
def criticalCols : List String := ["algorithm", "operation"]

/-- Embeds `numeric_cols` (line 215). -/
def numericCols : List String := ["iterations", "mean", "median", "min", "max", "stddev"]

/-- Modelled from the spec: Python `str.strip()` — drop leading and trailing
whitespace. -/
def pythonStrip (s : String) : String :=
  String.mk (((s.toList.dropWhile Char.isWhitespace).reverse.dropWhile
    Char.isWhitespace).reverse)

/-- The digit-fold underlying Python's number parsing. -/
def digitsNat (cs : List Char) : Nat :=
  cs.foldl (fun a c => a * 10 + (c.toNat - 48)) 0

/-- A non-empty all-digit run. -/
def parseDigits (cs : List Char) : Option Nat :=
  if cs = [] then none
  else if cs.all Char.isDigit then some (digitsNat cs) else none

/-- A parsed Python float in exact form: the signed digit string as an integer
mantissa plus the number of digits after the decimal point; its value is
`mantissa / 10 ^ fracLen` (`pyFloatVal`).  Decimal literals are exact in this
range, so only the representation, not the value, differs from IEEE floats. -/
def pyFloatVal (p : Int × Nat) : Rat := (p.1 : Rat) / (10 : Rat) ^ p.2

/-- The float comparison `value < 0`. -/
def pyFloatNeg (p : Int × Nat) : Bool := p.1 < 0

/-- Python's `str()` of the parsed float: sign, integer digits, a decimal
point, and the fractional digits (at least one, as Python prints floats);
trailing-zero trimming of literals like `1.50` is outside the model. -/
def pyFloatStr (p : Int × Nat) : String :=
  let sign := if p.1 < 0 then "-" else ""
  let d := p.1.natAbs
  let intPart := toString (d / 10 ^ p.2)
  let fracNat := d % 10 ^ p.2
  let fracRaw := toString fracNat
  let frac :=
    if p.2 = 0 then "0"
    else String.mk (List.replicate (p.2 - fracRaw.length) '0') ++ fracRaw
  sign ++ intPart ++ "." ++ frac

/-- Modelled from the spec (section 4.3, "must parse as a number"): Python
`float()` on a CSV cell — surrounding whitespace stripped, an optional sign,
digits with an optional fractional part (`5`, `-5`, `12.5`, `5.`, `.5`);
exponents, `inf`/`nan` and digit underscores are outside the model. -/
def pythonFloat (s : String) : Option (Int × Nat) :=
  let core := fun (cs : List Char) =>
    let intPart := cs.takeWhile (fun c => c != '.')
    match cs.dropWhile (fun c => c != '.') with
    | [] => (parseDigits intPart).map (fun n => ((n : Int), 0))
    | _ :: frac =>
      if intPart.all Char.isDigit && frac.all Char.isDigit
          && (!intPart.isEmpty || !frac.isEmpty) then
        some (((digitsNat intPart * 10 ^ frac.length + digitsNat frac : Nat) : Int),
          frac.length)
      else none
  match (pythonStrip s).toList with
  | '-' :: rest => (core rest).map (fun p => (-p.1, p.2))
  | '+' :: rest => core rest
  | cs => core cs

/-- The body of the per-row loop (lines 209-223).  A row is the DictReader
mapping from header names to cell strings; `col in row` is key membership. -/
def rowErrors (rowNum : Nat) (row : List (String × String)) : List String :=
  (criticalCols.filterMap (fun col =>
    match row.lookup col with
    | some v =>
      if pythonStrip v = "" then
        some ("Row " ++ toString rowNum ++ ": Empty value in column \x27" ++ col ++ "\x27")
      else none
    | none => none)) ++
  (numericCols.filterMap (fun col =>
    match row.lookup col with
    | some v =>
      if pythonStrip v = "" then none
      else
        match pythonFloat v with
        | some p =>
          if pyFloatNeg p then
            some ("Row " ++ toString rowNum ++ ": Negative value in \x27" ++ col
              ++ "\x27: " ++ pyFloatStr p)
          else none
        | none =>
          some ("Row " ++ toString rowNum ++ ": Invalid numeric value in \x27" ++ col
            ++ "\x27: " ++ v)
    | none => none))

/-- Embeds `for row_num, row in enumerate(reader, start=2)` (lines 206-223): the
row scan accumulates each row's errors in order. -/
def scanRows : Nat → List (List (String × String)) → List String
  | _, [] => []
  | n, row :: rest => rowErrors n row ++ scanRows (n + 1) rest

/-- A CSV file as the validator's front end sees it: its bytes, and the
parse outcome — either an exception from the reader (caught by the
`except Exception` arm, line 228) or the DictReader's optional header row
(`fieldnames`, `none` when the file yields no first row) plus the data rows
as complete header-keyed string mappings. -/
structure CSVFileData where
  content : List Nat
  parse : Except String (Option (List String) × List (List (String × String)))

/-- Embeds `CSVValidator.validate` (lines 173-236). -/
def CSVValidator.validate (H : List Nat → Nat) (file_path : String)
    (file : Option CSVFileData) : ValidationResult :=
  match file with
  | none => ⟨false, ["File not found: " ++ file_path], [], file_path, none⟩
  | some f =>
    if f.content = [] then
      ⟨false, ["File is empty: " ++ file_path], [], file_path, none⟩
    else
      match f.parse with
      | .error e => ⟨false, ["Error parsing CSV: " ++ e], [], file_path, none⟩
      | .ok (none, _) => ⟨false, ["CSV file has no headers"], [], file_path, none⟩
      | .ok (some headers, rows) =>
        let missingCols := expected_columns.filter (fun c => !headers.contains c)
        let warnings0 :=
          if missingCols = [] then []
          else ["Missing expected columns: " ++ pyStrListRepr missingCols]
        let errors := scanRows 2 rows
        let warnings :=
          if rows.length = 0 then warnings0 ++ ["CSV file has no data rows"]
          else warnings0
        ⟨errors.isEmpty, errors, warnings, file_path, some (get_checksum H f.content)⟩

/-
Helper lemmas.
-/

theorem readChunks_join (n : Nat) (l : List Nat) : (readChunks n l).flatten = l := by
  induction l using readChunks.induct n with
  | case1 => simp [readChunks]
  | case2 b rest ih =>
    rw [readChunks]
    simp only [List.flatten_cons, ih, List.take_append_drop]

theorem foldl_sha256Update (cs : List (List Nat)) (a : List Nat) :
    cs.foldl sha256Update a = a ++ cs.flatten := by
  induction cs generalizing a with
  | nil => simp
  | cons c cs ih => simp [sha256Update, ih, List.append_assoc]

/-- Chunked hashing is hashing the whole content at once (64 KiB chunks). -/
theorem calculate_sha256_eq_whole (H : List Nat → Nat) (content : List Nat) :
    calculate_sha256 H content = sha256Whole H content := by
  unfold calculate_sha256 sha256Whole
  rw [foldl_sha256Update, List.nil_append, readChunks_join]

/-- Chunked hashing is hashing the whole content at once (4 KiB chunks). -/
theorem get_checksum_eq_whole (H : List Nat → Nat) (content : List Nat) :
    get_checksum H content = sha256Whole H content := by
  unfold get_checksum sha256Whole
  rw [foldl_sha256Update, List.nil_append, readChunks_join]

theorem hexChar_mem (d : Nat) (hd : d < 16) : hexChars.contains (hexChar d) = true := by
  unfold hexChar
  interval_cases d <;> decide

theorem toHex64_length (n : Nat) : (toHex64 n).length = 64 := by
  show ((List.range 64).map _).length = 64
  simp

theorem toHex64_all_hex (n : Nat) :
    (toHex64 n).data.all (fun c => hexChars.contains c) = true := by
  have hdata : (toHex64 n).data
      = (List.range 64).map (fun i => hexChar (n / 16 ^ (63 - i) % 16)) := rfl
  rw [List.all_eq_true, hdata]
  intro c hc
  rcases List.mem_map.mp hc with ⟨i, _, rfl⟩
  exact hexChar_mem _ (Nat.mod_lt _ (by norm_num))

theorem foldl_verifyStep_total (H : List Nat → Nat)
    (readFile : String → Option (List Nat)) (es : List (String × ChecksumInfo))
    (acc : VerificationReport) :
    (es.foldl (verifyStep H readFile) acc).total = acc.total := by
  induction es generalizing acc with
  | nil => rfl
  | cons e es ih =>
    simp only [List.foldl_cons]
    rw [ih]
    unfold verifyStep
    split
    · rfl
    · split <;> rfl

theorem foldl_verifyStep_failed (H : List Nat → Nat)
    (readFile : String → Option (List Nat)) (es : List (String × ChecksumInfo))
    (acc : VerificationReport) :
    (es.foldl (verifyStep H readFile) acc).failed
      = acc.failed ++ es.filterMap (specEntryFailure H readFile) := by
  induction es generalizing acc with
  | nil => simp
  | cons e es ih =>
    simp only [List.foldl_cons, List.filterMap_cons]
    rw [ih]
    unfold verifyStep specEntryFailure
    cases readFile e.1 with
    | none => simp
    | some content =>
      by_cases h : calculate_sha256 H content = expectedOf e.2 <;> simp [h]

theorem foldl_verifyStep_verified (H : List Nat → Nat)
    (readFile : String → Option (List Nat)) (es : List (String × ChecksumInfo))
    (acc : VerificationReport) :
    (es.foldl (verifyStep H readFile) acc).verified
      = acc.verified + es.countP (fun e => (specEntryFailure H readFile e).isNone) := by
  induction es generalizing acc with
  | nil => simp
  | cons e es ih =>
    simp only [List.foldl_cons, List.countP_cons]
    rw [ih]
    unfold verifyStep specEntryFailure
    cases readFile e.1 with
    | none => simp
    | some content =>
      by_cases h : calculate_sha256 H content = expectedOf e.2 <;> simp [h]
      omega

theorem countP_isNone_add_length_filterMap {α β : Type} (f : α → Option β)
    (l : List α) :
    l.countP (fun a => (f a).isNone) + (l.filterMap f).length = l.length := by
  induction l with
  | nil => simp
  | cons a l ih =>
    simp only [List.countP_cons, List.filterMap_cons]
    cases h : f a <;> simp [h] <;> omega

theorem find?_of_mem {α : Type} {p : α → Bool} {l : List α} {a : α}
    (ha : a ∈ l) (hp : p a = true) :
    ∃ b, l.find? p = some b ∧ b ∈ l ∧ p b = true := by
  induction l with
  | nil => cases ha
  | cons x l ih =>
    by_cases hx : p x = true
    · exact ⟨x, by simp [List.find?, hx], List.mem_cons_self x l, hx⟩
    · rcases List.mem_cons.mp ha with rfl | ha'
      · exact absurd hp hx
      · rcases ih ha' with ⟨b, hb, hbl, hpb⟩
        exact ⟨b, by simp [List.find?, Bool.of_not_eq_true hx, hb],
          List.mem_cons_of_mem _ hbl, hpb⟩

theorem mem_generate_checksums {H : List Nat → Nat} {rootParts : List String}
    {files : List FileEntry} {p : String} {e : ChecksumEntry} :
    (p, e) ∈ generate_checksums H rootParts files ↔
      ∃ pat ∈ patterns, ∃ f ∈ files,
        matchesPattern pat (baseName f) = true ∧
        hasExcludedComponent (rootParts ++ f.parts) = false ∧
        p = pathStr f.parts ∧
        e = ⟨calculate_sha256 H f.content, f.content.length, f.mtime⟩ := by
  simp only [generate_checksums, List.mem_flatMap, List.mem_map, List.mem_filter,
    Bool.and_eq_true, Bool.not_eq_true', Prod.mk.injEq]
  constructor
  · rintro ⟨pat, hpat, f, ⟨hf, hmatch, hexcl⟩, hpe, hee⟩
    exact ⟨pat, hpat, f, hf, hmatch, hexcl, hpe.symm, hee.symm⟩
  · rintro ⟨pat, hpat, f, hf, hmatch, hexcl, hpe, hee⟩
    exact ⟨pat, hpat, f, ⟨hf, hmatch, hexcl⟩, hpe.symm, hee.symm⟩

theorem hasExcludedComponent_iff (ps : List String) :
    hasExcludedComponent ps = true ↔ ∃ c ∈ ps, c ∈ exclude_dirs := by
  unfold hasExcludedComponent
  rw [List.any_eq_true]
  constructor
  · rintro ⟨x, hx, hm⟩
    exact ⟨x, by simpa using hm, hx⟩
  · rintro ⟨c, hc, hm⟩
    exact ⟨c, hm, by simpa using hc⟩

/-
Claim theorems.
-/

/-- C7: the generator/verifier hash routine (64 KiB chunks) and the
validators' checksum routine (4 KiB chunks) both compute exactly the SHA-256
hex digest of the whole byte content hashed at once, so the chunk size has no
observable effect; the rendered digest is always the same 64-hex-character
string for the same bytes. -/
theorem checksum_pure_function_of_bytes (H : List Nat → Nat) (content : List Nat) :
    calculate_sha256 H content = sha256Whole H content ∧
    get_checksum H content = sha256Whole H content ∧
    calculate_sha256 H content = get_checksum H content ∧
    (calculate_sha256 H content).length = 64 ∧
    (calculate_sha256 H content).data.all (fun c => hexChars.contains c) = true :=
  ⟨calculate_sha256_eq_whole H content, get_checksum_eq_whole H content,
   by rw [calculate_sha256_eq_whole, get_checksum_eq_whole],
   by rw [calculate_sha256_eq_whole]; exact toHex64_length _,
   by rw [calculate_sha256_eq_whole]; exact toHex64_all_hex _⟩

/-- C2: the verifier processes every manifest entry with no short-circuit —
`total` is the number of entries, the failed list collects exactly the
missing/mismatch outcomes in order (a missing path is recorded without being
hashed, a differing digest is recorded as a mismatch), the remaining entries
are counted verified so that total = verified + |failed|, and the exit status
is non-zero iff the failed list is non-empty. -/
theorem verify_totality_policy (H : List Nat → Nat)
    (readFile : String → Option (List Nat)) (es : List (String × ChecksumInfo)) :
    (verifyEntries H es readFile).total = es.length ∧
    (verifyEntries H es readFile).failed = es.filterMap (specEntryFailure H readFile) ∧
    (verifyEntries H es readFile).verified + (verifyEntries H es readFile).failed.length
      = (verifyEntries H es readFile).total ∧
    (∀ p info, (p, info) ∈ es → readFile p = none →
      (p, "missing") ∈ (verifyEntries H es readFile).failed) ∧
    (∀ p info content, (p, info) ∈ es → readFile p = some content →
      calculate_sha256 H content ≠ expectedOf info →
      (p, "mismatch") ∈ (verifyEntries H es readFile).failed) ∧
    (∀ doc : ManifestDoc, doc.checksums = some es →
      verify_checksums H doc readFile = .ok (verifyEntries H es readFile)) ∧
    (reportExit (verifyEntries H es readFile) ≠ 0 ↔
      (verifyEntries H es readFile).failed ≠ []) := by
  have htot : (verifyEntries H es readFile).total = es.length := by
    unfold verifyEntries
    rw [foldl_verifyStep_total]
  have hfail : (verifyEntries H es readFile).failed
      = es.filterMap (specEntryFailure H readFile) := by
    unfold verifyEntries
    rw [foldl_verifyStep_failed]
    simp
  have hver : (verifyEntries H es readFile).verified
      = es.countP (fun e => (specEntryFailure H readFile e).isNone) := by
    unfold verifyEntries
    rw [foldl_verifyStep_verified]
    simp
  refine ⟨htot, hfail, ?_, ?_, ?_, ?_, ?_⟩
  · rw [htot, hfail, hver]
    exact countP_isNone_add_length_filterMap _ _
  · intro p info hmem hnone
    rw [hfail]
    exact List.mem_filterMap.mpr ⟨(p, info), hmem, by simp [specEntryFailure, hnone]⟩
  · intro p info content hmem hsome hne
    rw [hfail]
    exact List.mem_filterMap.mpr ⟨(p, info), hmem, by simp [specEntryFailure, hsome, hne]⟩
  · intro doc hdoc
    unfold verify_checksums
    rw [hdoc]
  · unfold reportExit
    split <;> simp_all

theorem verify_totality_policy_witness :
    (("a.json", ChecksumInfo.obj "xyz")
        ∈ [("a.json", ChecksumInfo.obj "xyz"), ("b.csv", ChecksumInfo.str "uvw")]) ∧
    ((fun _ => none) : String → Option (List Nat)) "a.json" = none ∧
    ("a.json", "missing")
      ∈ (verifyEntries testDigest
          [("a.json", ChecksumInfo.obj "xyz"), ("b.csv", ChecksumInfo.str "uvw")]
          (fun _ => none)).failed ∧
    (verifyEntries testDigest
        [("a.json", ChecksumInfo.obj "xyz"), ("b.csv", ChecksumInfo.str "uvw")]
        (fun _ => none)).total = 2 :=
  ⟨by decide, rfl,
   (verify_totality_policy testDigest (fun _ => none)
      [("a.json", ChecksumInfo.obj "xyz"), ("b.csv", ChecksumInfo.str "uvw")]).2.2.2.1
     "a.json" (ChecksumInfo.obj "xyz") (by decide) rfl,
   (verify_totality_policy testDigest (fun _ => none)
      [("a.json", ChecksumInfo.obj "xyz"), ("b.csv", ChecksumInfo.str "uvw")]).1⟩

/-- C3 (code bug): on the legacy `files`-format manifest
`{"files": {"data.json": "abc"}}` the standalone verifier converts the mapping
and produces a complete report, while the script emitted by
`generate_verification_script` evaluates `manifest["checksums"]` and dies with
an uncaught KeyError, verifying nothing; on a manifest with neither key, the
standalone verifier exits with the invalid-format error where the emitted
script again raises KeyError — the emitted companion does not implement the
standalone verifier's algorithm. -/
theorem emitted_script_files_format_divergence :
    script_verify_checksums testDigest ⟨none, some [("data.json", "abc")]⟩ (fun _ => none)
      = .error .keyError ∧
    verify_checksums testDigest ⟨none, some [("data.json", "abc")]⟩ (fun _ => none)
      = .ok ⟨1, 0, [("data.json", "missing")]⟩ ∧
    script_verify_checksums testDigest ⟨none, none⟩ (fun _ => none) = .error .keyError ∧
    verify_checksums testDigest ⟨none, none⟩ (fun _ => none) = .error .invalidFormat :=
  ⟨rfl, rfl, rfl, rfl⟩

/-- C8 counterexample: a file named `htmlcov.json` at the top level of a clean
root is NOT excluded — it appears in the generated manifest, because `htmlcov`
is not equal to any exact path component. -/
theorem exclusion_htmlcov_json_included :
    (generate_checksums testDigest ["results"]
      [⟨["htmlcov.json"], [], "t"⟩]).map Prod.fst = ["htmlcov.json"] := by
  decide

/-- C8 (amended): a file matching the extension set is present in the manifest
iff no component of its full path (root components followed by relative
components) is a member of the exclusion set — a denylist on exact path
components, not a glob or substring match; consequently a top-level
`htmlcov.json` is included, not excluded. -/
theorem excluded_iff_component (H : List Nat → Nat) (rootParts : List String)
    (files : List FileEntry) (f : FileEntry)
    (hN : (files.map (fun g => pathStr g.parts)).Nodup) (hf : f ∈ files)
    (hpat : patterns.any (fun pat => matchesPattern pat (baseName f)) = true) :
    (∃ e, (pathStr f.parts, e) ∈ generate_checksums H rootParts files)
      ↔ ¬ ∃ c ∈ rootParts ++ f.parts, c ∈ exclude_dirs := by
  rw [← hasExcludedComponent_iff]
  constructor
  · rintro ⟨e, he⟩
    rw [mem_generate_checksums] at he
    rcases he with ⟨pat, _, g, hg, _, hx, hp, _⟩
    have hgf : g = f := by
      have := List.inj_on_of_nodup_map hN hg hf
      exact this hp.symm
    rw [hgf] at hx
    simp [hx]
  · intro hnx
    rcases List.any_eq_true.mp hpat with ⟨pat, hpatMem, hmatch⟩
    refine ⟨⟨calculate_sha256 H f.content, f.content.length, f.mtime⟩, ?_⟩
    rw [mem_generate_checksums]
    exact ⟨pat, hpatMem, f, hf, hmatch, by simpa using hnx, rfl, rfl⟩

theorem excluded_iff_component_witness :
    ((filesW.map (fun g => pathStr g.parts)).Nodup) ∧
    (filesW.get ⟨0, by decide⟩ ∈ filesW) ∧
    (patterns.any (fun pat => matchesPattern pat (baseName (filesW.get ⟨0, by decide⟩)))
      = true) ∧
    ((∃ e, (pathStr (filesW.get ⟨0, by decide⟩).parts, e)
        ∈ generate_checksums testDigest ["results"] filesW)
      ↔ ¬ ∃ c ∈ ["results"] ++ (filesW.get ⟨0, by decide⟩).parts, c ∈ exclude_dirs) :=
  ⟨by decide, by decide, by decide,
   excluded_iff_component testDigest ["results"] filesW _ (by decide) (by decide) (by decide)⟩

/-- C9 counterexample: `main`'s guard does not fire on a root path that exists
but is not a directory — the run does not fail with the not-found error there,
contrary to the claim. -/
theorem main_nondir_passes_check :
    mainNotFoundExit (RootState.nonDir []) = false := rfl

/-- C9 (amended): the generator run aborts with the does-not-exist error
exactly when the root path does not exist; an existing path passes the guard
whether or not it is a directory (`main` checks only `data_dir.exists()`). -/
theorem main_guard_exists_only :
    mainNotFoundExit RootState.absent = true ∧
    (∀ content, mainNotFoundExit (RootState.nonDir content) = false) ∧
    (∀ files, mainNotFoundExit (RootState.dir files) = false) :=
  ⟨rfl, fun _ => rfl, fun _ => rfl⟩

/-- C1: generating a manifest over an existing directory of well-formed files
(distinct relative paths) and immediately verifying it against the unchanged
directory yields zero failures — every manifest entry is counted as verified
and the run exits successfully. -/
theorem generate_verify_roundtrip (H : List Nat → Nat) (rootParts : List String)
    (files : List FileEntry)
    (hN : (files.map (fun g => pathStr g.parts)).Nodup) :
    ∃ r, verify_checksums H
        (manifestToDoc (generate_checksums H rootParts files)) (fsOfDir files) = .ok r ∧
      r.failed = [] ∧ r.verified = r.total ∧
      r.total = (generate_checksums H rootParts files).length ∧
      reportExit r = 0 := by
  have hfail : (verifyEntries H ((generate_checksums H rootParts files).map
      (fun e => (e.1, ChecksumInfo.obj e.2.sha256))) (fsOfDir files)).failed = [] := by
    unfold verifyEntries
    rw [foldl_verifyStep_failed]
    simp only [List.nil_append]
    rw [List.filterMap_eq_nil_iff]
    intro e he
    rcases List.mem_map.mp he with ⟨g, hgmem, rfl⟩
    rcases g with ⟨p, ce⟩
    rcases mem_generate_checksums.mp hgmem with ⟨pat, hpat, f, hfmem, hm, hx, hp, hce⟩
    have hpred : (pathStr f.parts == p) = true := by
      rw [hp]
      simp
    rcases @find?_of_mem FileEntry (fun f2 => pathStr f2.parts == p) files f hfmem hpred
      with ⟨b, hb, hbmem, hbpred⟩
    have hbf : b = f := by
      apply List.inj_on_of_nodup_map hN hbmem hfmem
      have hbp : pathStr b.parts = p := by simpa using hbpred
      rw [hbp, hp]
    unfold specEntryFailure
    simp only [fsOfDir, hb, hbf, Option.map_some, expectedOf, hce]
    simp
  have htot : (verifyEntries H ((generate_checksums H rootParts files).map
      (fun e => (e.1, ChecksumInfo.obj e.2.sha256))) (fsOfDir files)).total
      = (generate_checksums H rootParts files).length := by
    unfold verifyEntries
    rw [foldl_verifyStep_total]
    simp
  have hver : (verifyEntries H ((generate_checksums H rootParts files).map
      (fun e => (e.1, ChecksumInfo.obj e.2.sha256))) (fsOfDir files)).verified
      = (generate_checksums H rootParts files).length := by
    have h1 := foldl_verifyStep_verified H (fsOfDir files)
      ((generate_checksums H rootParts files).map
        (fun e => (e.1, ChecksumInfo.obj e.2.sha256)))
      ⟨((generate_checksums H rootParts files).map
        (fun e => (e.1, ChecksumInfo.obj e.2.sha256))).length, 0, []⟩
    have h2 := countP_isNone_add_length_filterMap
      (specEntryFailure H (fsOfDir files))
      ((generate_checksums H rootParts files).map
        (fun e => (e.1, ChecksumInfo.obj e.2.sha256)))
    have h3 : (((generate_checksums H rootParts files).map
        (fun e => (e.1, ChecksumInfo.obj e.2.sha256))).filterMap
          (specEntryFailure H (fsOfDir files))) = [] := by
      have h4 := hfail
      unfold verifyEntries at h4
      rw [foldl_verifyStep_failed] at h4
      simpa using h4
    rw [h3] at h2
    simp only [List.length_nil, Nat.add_zero, List.length_map] at h2
    unfold verifyEntries
    rw [h1, h2]
    simp
  refine ⟨verifyEntries H ((generate_checksums H rootParts files).map
    (fun e => (e.1, ChecksumInfo.obj e.2.sha256))) (fsOfDir files), ?_,
    hfail, ?_, htot, ?_⟩
  · rfl
  · rw [hver, htot]
  · unfold reportExit
    rw [if_pos hfail]

theorem generate_verify_roundtrip_witness :
    ((filesW.map (fun g => pathStr g.parts)).Nodup) ∧
    (∃ r, verify_checksums testDigest
        (manifestToDoc (generate_checksums testDigest ["results"] filesW))
        (fsOfDir filesW) = .ok r ∧
      r.failed = [] ∧ r.verified = r.total ∧
      r.total = (generate_checksums testDigest ["results"] filesW).length ∧
      reportExit r = 0) :=
  ⟨by decide, generate_verify_roundtrip testDigest ["results"] filesW (by decide)⟩

theorem scanRows_eq_enumFrom (n : Nat) (rows : List (List (String × String))) :
    scanRows n rows = ((List.enumFrom n rows).map (fun p => rowErrors p.1 p.2)).flatten := by
  induction rows generalizing n with
  | nil => rfl
  | cons r rest ih => simp [scanRows, List.enumFrom, ih]

theorem pyFloatNeg_iff (p : Int × Nat) : pyFloatNeg p = true ↔ pyFloatVal p < 0 := by
  unfold pyFloatNeg pyFloatVal
  rw [decide_eq_true_eq]
  constructor
  · intro h
    apply div_neg_of_neg_of_pos
    · exact_mod_cast h
    · positivity
  · intro h
    by_contra hn
    push_neg at hn
    have h0 : (0 : Rat) ≤ (p.1 : Rat) / (10 : Rat) ^ p.2 :=
      div_nonneg (by exact_mod_cast hn) (by positivity)
    linarith

/-- C4: for both validators, the returned result's `valid` flag is exactly
the emptiness of its `errors` list — warnings never affect validity; in
particular a JSON file with `algorithm` present whose sole `results` entry
merely lacks `operation` is valid with exactly that one warning. -/
theorem validationResult_valid_iff_no_errors :
    (∀ (H : List Nat → Nat) (fp : String) (file : Option JFileData),
      (JSONValidator.validate H fp file).valid
        = (JSONValidator.validate H fp file).errors.isEmpty) ∧
    (∀ (H : List Nat → Nat) (fp : String) (file : Option CSVFileData),
      (CSVValidator.validate H fp file).valid
        = (CSVValidator.validate H fp file).errors.isEmpty) ∧
    JSONValidator.validate testDigest "bench.json" (some ⟨[49],
        .ok (.obj [("algorithm", .str "ML-KEM-512"),
          ("results", .arr [.obj [("mean_us", .intNum 1), ("median_us", .intNum 1),
            ("stddev_us", .intNum 1), ("min_us", .intNum 1), ("max_us", .intNum 1)]])])⟩)
      = ⟨true, [], ["Result 0 missing \x27operation\x27 field"], "bench.json",
          some (get_checksum testDigest [49])⟩ := by
  refine ⟨?_, ?_, rfl⟩
  · intro H fp file
    cases file with
    | none => rfl
    | some f =>
      unfold JSONValidator.validate
      by_cases hc : f.content = []
      · simp [hc]
      · simp only [if_neg hc]
        cases hp : f.parse with
        | error e => rfl
        | ok v => cases v <;> rfl
  · intro H fp file
    cases file with
    | none => rfl
    | some f =>
      unfold CSVValidator.validate
      by_cases hc : f.content = []
      · simp [hc]
      · simp only [if_neg hc]
        cases hp : f.parse with
        | error e => rfl
        | ok pr =>
          rcases pr with ⟨ho, rows⟩
          cases ho <;> rfl

/-- C5: a missing file, a present-but-zero-length file, and (for JSON) a file
that fails to parse or whose parsed root is not an object all make both
validators return immediately with `valid = false`, exactly one error, and no
checksum. -/
theorem validators_fast_fail (H : List Nat → Nat) (fp : String) :
    (JSONValidator.validate H fp none
      = ⟨false, ["File not found: " ++ fp], [], fp, none⟩) ∧
    (∀ pr, JSONValidator.validate H fp (some ⟨[], pr⟩)
      = ⟨false, ["File is empty: " ++ fp], [], fp, none⟩) ∧
    (∀ content e, content ≠ [] →
      JSONValidator.validate H fp (some ⟨content, .error e⟩)
        = ⟨false, ["Invalid JSON: " ++ e], [], fp, none⟩) ∧
    (∀ content v, content ≠ [] → jIsObj v = false →
      JSONValidator.validate H fp (some ⟨content, .ok v⟩)
        = ⟨false, ["Root element must be a JSON object"], [], fp, none⟩) ∧
    (CSVValidator.validate H fp none
      = ⟨false, ["File not found: " ++ fp], [], fp, none⟩) ∧
    (∀ pr, CSVValidator.validate H fp (some ⟨[], pr⟩)
      = ⟨false, ["File is empty: " ++ fp], [], fp, none⟩) := by
  refine ⟨rfl, fun pr => rfl, ?_, ?_, rfl, fun pr => rfl⟩
  · intro content e hc
    simp only [JSONValidator.validate, if_neg hc]
  · intro content v hc hv
    simp only [JSONValidator.validate, if_neg hc]
    cases v <;> first | rfl | exact absurd hv (by simp [jIsObj])

theorem validators_fast_fail_witness :
    (([48] : List Nat) ≠ []) ∧ jIsObj (JValue.arr []) = false ∧
    JSONValidator.validate testDigest "d.json" (some ⟨[48], .error "boom"⟩)
      = ⟨false, ["Invalid JSON: boom"], [], "d.json", none⟩ ∧
    JSONValidator.validate testDigest "d.json" (some ⟨[48], .ok (JValue.arr [])⟩)
      = ⟨false, ["Root element must be a JSON object"], [], "d.json", none⟩ ∧
    JSONValidator.validate testDigest "d.json" (some ⟨[], .ok JValue.null⟩)
      = ⟨false, ["File is empty: d.json"], [], "d.json", none⟩ ∧
    CSVValidator.validate testDigest "d.csv" none
      = ⟨false, ["File not found: d.csv"], [], "d.csv", none⟩ :=
  ⟨by decide, rfl,
   (validators_fast_fail testDigest "d.json").2.2.1 [48] "boom" (by decide),
   (validators_fast_fail testDigest "d.json").2.2.2.1 [48] (JValue.arr [])
     (by decide) rfl,
   (validators_fast_fail testDigest "d.json").2.1 (.ok JValue.null),
   (validators_fast_fail testDigest "d.csv").2.2.2.2.1⟩

/-- C6: CSV rows are numbered from 2 and processed independently — the
validator's error list over a parsed table is the concatenation of each row's
own errors in order; an empty or whitespace-only `algorithm`/`operation`
value yields an error naming the row and column; a present, non-blank numeric
cell that fails to parse yields an invalid-value error and one that parses to
a negative value yields a negative-value error, never a crash — in particular
`mean = "-5"` in row 2 yields exactly the row-2 `mean` negative-value
error. -/
theorem csv_row_validation (H : List Nat → Nat) (fp : String) (content : List Nat)
    (headers : List String) (rows : List (List (String × String)))
    (hc : content ≠ []) :
    ((CSVValidator.validate H fp (some ⟨content, .ok (some headers, rows)⟩)).errors
      = ((List.enumFrom 2 rows).map (fun p => rowErrors p.1 p.2)).flatten) ∧
    (∀ n row col v, col ∈ criticalCols → row.lookup col = some v →
      pythonStrip v = "" →
      ("Row " ++ toString n ++ ": Empty value in column \x27" ++ col ++ "\x27")
        ∈ rowErrors n row) ∧
    (∀ n row col v, col ∈ numericCols → row.lookup col = some v →
      pythonStrip v ≠ "" → pythonFloat v = none →
      ("Row " ++ toString n ++ ": Invalid numeric value in \x27" ++ col ++ "\x27: " ++ v)
        ∈ rowErrors n row) ∧
    (∀ n row col v p, col ∈ numericCols → row.lookup col = some v →
      pythonStrip v ≠ "" → pythonFloat v = some p → pyFloatVal p < 0 →
      ("Row " ++ toString n ++ ": Negative value in \x27" ++ col ++ "\x27: "
          ++ pyFloatStr p)
        ∈ rowErrors n row) ∧
    (rowErrors 2 [("algorithm", "ML-KEM-512"), ("operation", "keygen"), ("mean", "-5")]
      = ["Row 2: Negative value in \x27mean\x27: -5.0"]) := by
  refine ⟨?_, ?_, ?_, ?_, by decide⟩
  · have hv : (CSVValidator.validate H fp (some ⟨content, .ok (some headers, rows)⟩)).errors
        = scanRows 2 rows := by
      simp only [CSVValidator.validate, if_neg hc]
    rw [hv, scanRows_eq_enumFrom]
  · intro n row col v hcol hlook hstrip
    apply List.mem_append_left
    apply List.mem_filterMap.mpr
    exact ⟨col, hcol, by rw [hlook]; simp [hstrip]⟩
  · intro n row col v hcol hlook hstrip hfloat
    apply List.mem_append_right
    apply List.mem_filterMap.mpr
    exact ⟨col, hcol, by rw [hlook]; simp [hstrip, hfloat]⟩
  · intro n row col v p hcol hlook hstrip hfloat hneg
    apply List.mem_append_right
    apply List.mem_filterMap.mpr
    refine ⟨col, hcol, ?_⟩
    rw [hlook]
    simp only [if_neg hstrip, hfloat]
    rw [if_pos ((pyFloatNeg_iff p).mpr hneg)]

theorem csv_row_validation_witness :
    (([49] : List Nat) ≠ []) ∧
    ((CSVValidator.validate testDigest "f.csv" (some ⟨[49],
        .ok (some ["algorithm", "operation", "mean"],
          [[("algorithm", "A"), ("operation", "enc"), ("mean", "1.5")],
           [("algorithm", "B"), ("operation", "dec"), ("mean", "-2")]])⟩)).errors
      = ((List.enumFrom 2
          [[("algorithm", "A"), ("operation", "enc"), ("mean", "1.5")],
           [("algorithm", "B"), ("operation", "dec"), ("mean", "-2")]]).map
            (fun p => rowErrors p.1 p.2)).flatten) ∧
    (("Row " ++ toString 3 ++ ": Empty value in column \x27" ++ "operation" ++ "\x27")
      ∈ rowErrors 3 [("algorithm", "A"), ("operation", " ")]) ∧
    (("Row " ++ toString 2 ++ ": Invalid numeric value in \x27" ++ "mean" ++ "\x27: "
        ++ "abc")
      ∈ rowErrors 2 [("mean", "abc")]) ∧
    (("Row " ++ toString 2 ++ ": Negative value in \x27" ++ "mean" ++ "\x27: "
        ++ pyFloatStr ((-5 : Int), 0))
      ∈ rowErrors 2 [("mean", "-5")]) :=
  by
  have h1 := csv_row_validation testDigest "f.csv" [49] ["algorithm", "operation", "mean"]
    [[("algorithm", "A"), ("operation", "enc"), ("mean", "1.5")],
     [("algorithm", "B"), ("operation", "dec"), ("mean", "-2")]] (by decide)
  have h2 := csv_row_validation testDigest "f.csv" [49] [] [] (by decide)
  exact ⟨by decide, h1.1,
    h2.2.1 3 [("algorithm", "A"), ("operation", " ")] "operation" " " (by decide)
      rfl (by decide),
    h2.2.2.1 2 [("mean", "abc")] "mean" "abc" (by decide) rfl (by decide) (by decide),
    h2.2.2.2.1 2 [("mean", "-5")] "mean" "-5" ((-5 : Int), 0) (by decide) rfl
      (by decide) (by decide) (by norm_num [pyFloatVal])⟩

/-- C10 counterexample: a JSON object that contains `algorithm` and a
non-list `results` value is NOT always valid with empty errors and warnings —
when it also carries a mapping-valued `operations` field with a non-object
entry, the legacy branch runs and produces an error. -/
theorem results_nonlist_with_operations_invalid :
    JSONValidator.validate testDigest "bench.json" (some ⟨[49],
      .ok (.obj [("algorithm", .str "a"), ("results", .str "some string"),
        ("operations", .obj [("keygen", .intNum 5)])])⟩)
      = ⟨false, ["Operation \x27keygen\x27 must be an object"], [], "bench.json",
          some (get_checksum testDigest [49])⟩ := rfl

/-- C10 (amended): a top-level `results` value that is not a list is silently
ignored, and so is an `operations` value that is not a mapping — provided the
`operations` field is also ignored (absent or non-mapping), a JSON object
containing the required `algorithm` field and a non-list `results` validates
with `valid = true`, empty errors and empty warnings. -/
theorem results_nonlist_ignored (H : List Nat → Nat) (fp : String) (content : List Nat)
    (kvs : List (String × JValue)) (rv : JValue)
    (hc : content ≠ [])
    (halg : (kvs.lookup "algorithm").isSome = true)
    (hres : kvs.lookup "results" = some rv)
    (hnl : ∀ xs, rv ≠ JValue.arr xs)
    (hops : ∀ ov, kvs.lookup "operations" = some ov → ∀ os, ov ≠ JValue.obj os) :
    JSONValidator.validate H fp (some ⟨content, .ok (.obj kvs)⟩)
      = ⟨true, [], [], fp, some (get_checksum H content)⟩ := by
  have hreq : required_fields.filterMap (fun fld =>
      if (kvs.lookup fld).isSome then none
      else some ("Missing required field: " ++ fld)) = [] := by
    unfold required_fields
    simp [halg]
  have herr : jsonBodyErrors kvs = [] := by
    unfold jsonBodyErrors
    rw [hres, hreq]
    cases rv with
    | arr xs => exact absurd rfl (hnl xs)
    | _ =>
      cases ho : kvs.lookup "operations" with
      | none => rfl
      | some ov =>
        cases ov <;> first | exact absurd rfl (hops _ ho _) | rfl
  have hwarn : jsonBodyWarnings kvs = [] := by
    unfold jsonBodyWarnings
    rw [hres]
    cases rv with
    | arr xs => exact absurd rfl (hnl xs)
    | _ =>
      cases ho : kvs.lookup "operations" with
      | none => rfl
      | some ov =>
        cases ov <;> first | exact absurd rfl (hops _ ho _) | rfl
  simp only [JSONValidator.validate, if_neg hc]
  rw [herr, hwarn]
  rfl

theorem results_nonlist_ignored_witness :
    (([49] : List Nat) ≠ []) ∧
    JSONValidator.validate testDigest "bench.json" (some ⟨[49],
      .ok (.obj [("algorithm", JValue.str "a"), ("results", JValue.str "some string")])⟩)
      = ⟨true, [], [], "bench.json", some (get_checksum testDigest [49])⟩ :=
  ⟨by decide,
   results_nonlist_ignored testDigest "bench.json" [49]
     [("algorithm", JValue.str "a"), ("results", JValue.str "some string")]
     (JValue.str "some string") (by decide) rfl rfl
     (fun xs h => JValue.noConfusion h) (fun ov h => Option.noConfusion h)⟩

end BenchmarkPQC
